import Mathlib

/-!
Shallow embedding of `com_ptr` (src/src/lib.rs): an `HResult` status-code
wrapper, the `hresult` translation helper, and the `ComPtr` smart pointer
with its construction, cloning, dropping, interface query and comparison
operations. Addresses are modelled as `Nat` (0 is the null pointer), the
signed 32-bit `HRESULT` as `Int` (only sign comparisons occur, so no
wrap-around arises), a Rust panic as `Option.none`, and `Result<T, E>` as
`Except E T`. The native object's reference count is threaded explicitly
as an `Int` through the operations that touch it.
-/

set_option autoImplicit false

namespace ComPtrLib

/-- Embeds `struct HResult(pub HRESULT)` (lib.rs line 36): a wrapper around
a signed 32-bit status code. The field doubles as the `code()` accessor
(lib.rs lines 50-52), which returns `self.0`. -/
structure HResult where
  code : Int
  deriving DecidableEq, Repr

/-- Embeds `HResult::is_succeed` (lib.rs lines 40-42): `self.0 >= 0`. -/
def HResult.is_succeed (h : HResult) : Bool :=
  decide (h.code ≥ 0)

/-- Embeds `HResult::is_failed` (lib.rs lines 45-47): `self.0 < 0`. -/
def HResult.is_failed (h : HResult) : Bool :=
  decide (h.code < 0)

/-- Embeds the free function `hresult` (lib.rs lines 81-87):
`if res < 0 { Err(HResult(res)) } else { Ok(obj) }`. -/
def hresult {T : Type} (obj : T) (res : Int) : Except HResult T :=
  if res < 0 then Except.error ⟨res⟩ else Except.ok obj

/-- Embeds `std::ptr::NonNull<T>`: an address together with the invariant
that it is not the null address. -/
structure NonNull where
  addr : Nat
  ne : addr ≠ 0

/-- Embeds `NonNull::new`: `Some` exactly when the address is non-null. -/
def NonNull.new (ptr : Nat) : Option NonNull :=
  if h : ptr = 0 then none else some ⟨ptr, h⟩

/-- Embeds `struct ComPtr<T> { p: NonNull<T> }` (lib.rs lines 90-92). The
interface type parameter `T` plays no role in the data layout and is
dropped. -/
structure ComPtr where
  p : NonNull

/-- Embeds `ComPtr::from_raw` (lib.rs lines 111-115):
`NonNull::new(ptr).expect("ComPtr should not be null.")`. The `expect`
panics on `None`; the panic is modelled as `none`. -/
def ComPtr.from_raw (ptr : Nat) : Option ComPtr :=
  match NonNull.new ptr with
  | none => none
  | some p => some ⟨p⟩

/-- Embeds `ComPtr::as_ptr` (lib.rs lines 119-121): `self.p.as_ptr()`. -/
def ComPtr.as_ptr (c : ComPtr) : Nat :=
  c.p.addr

/-- Embeds `ComPtr::new` (lib.rs lines 99-104):
`unsafe { Ok(ComPtr::from_raw(f()?)) }`. The `?` propagates the closure's
error verbatim; otherwise `from_raw` wraps the returned address (and
panics, i.e. `none`, when that address is null). -/
def ComPtr.new {E : Type} (f : Unit → Except E Nat) : Option (Except E ComPtr) :=
  match f () with
  | Except.error e => some (Except.error e)
  | Except.ok ptr =>
    match ComPtr.from_raw ptr with
    | none => none
    | some c => some (Except.ok c)

/-- Embeds `ComPtr::query_interface` (lib.rs lines 130-136). The native
`QueryInterface` call on the underlying object is abstracted by its two
outputs: the address it stores through the out parameter (`out`) and the
status code it returns (`res`). The body is
`hresult(ComPtr::from_raw(p as *mut U), res)`: Rust evaluates the argument
`ComPtr::from_raw(p)` before `hresult` ever inspects `res`, so a null out
pointer panics (modelled as `none`) regardless of the status code. -/
def ComPtr.query_interface (_self : ComPtr) (out : Nat) (res : Int) :
    Option (Except HResult ComPtr) :=
  match ComPtr.from_raw out with
  | none => none
  | some c => some (hresult c res)

/-- Embeds `IUnknown::AddRef` acting on the object's reference count:
an infallible increment, per the COM contract assumed by the source. -/
def IUnknown.AddRef (count : Int) : Int :=
  count + 1

/-- Embeds `IUnknown::Release` acting on the object's reference count:
an infallible decrement. -/
def IUnknown.Release (count : Int) : Int :=
  count - 1

/-- Embeds `ComPtr::add_ref` (lib.rs lines 144-146): one `AddRef` call on
the underlying object. -/
def ComPtr.add_ref (_self : ComPtr) (count : Int) : Int :=
  IUnknown.AddRef count

/-- Embeds `ComPtr::release` (lib.rs lines 149-151): one `Release` call on
the underlying object. -/
def ComPtr.release (_self : ComPtr) (count : Int) : Int :=
  IUnknown.Release count

/-- Embeds `impl Clone for ComPtr` (lib.rs lines 162-167):
`self.add_ref(); ComPtr { p: self.p.clone() }`. Total: cloning cannot
fail. Returns the new handle together with the updated count. -/
def ComPtr.clone (c : ComPtr) (count : Int) : ComPtr × Int :=
  let count2 := c.add_ref count
  (⟨c.p⟩, count2)

/-- Embeds `impl Drop for ComPtr` (lib.rs lines 169-173):
`self.release()`. Rust invokes `drop` exactly once per handle at end of
scope, so one application of this function models one handle's entire
destruction. -/
def ComPtr.drop (c : ComPtr) (count : Int) : Int :=
  c.release count

/-- Dropping a whole collection of handles in order, each handle dropped
once, threading the shared reference count. -/
def dropAll (cs : List ComPtr) (count : Int) : Int :=
  cs.foldl (fun n c => ComPtr.drop c n) count

/-- Embeds `impl PartialEq for ComPtr` (lib.rs lines 175-179):
`self.as_ptr() == other.as_ptr()`. -/
def ComPtr.eq (a b : ComPtr) : Bool :=
  a.as_ptr == b.as_ptr

/-- Embeds `impl Ord for ComPtr` (lib.rs lines 189-193):
`self.as_ptr().cmp(&other.as_ptr())`, the numeric comparison of the raw
addresses. (The `PartialOrd` impl at lines 183-187 delegates to the same
pointer comparison and always yields `Some` of this ordering.) -/
def ComPtr.cmp (a b : ComPtr) : Ordering :=
  compare a.as_ptr b.as_ptr

/-- Buffer lifecycle events of the `Display` implementation. -/
inductive BufEvent where
  | alloc
  | free
  deriving DecidableEq, BEq, Repr

/-- Embeds `impl Display for HResult` (lib.rs lines 55-74). The native
pieces are abstracted: `fm` stands for `FormatMessageW` with
`FORMAT_MESSAGE_ALLOCATE_BUFFER` producing the message text for a code
(its allocation is the `alloc` event), and `write` stands for the
`write!` into the caller's formatter, whose outcome the source captures
in `ret` without early return. `LocalFree(p)` is the `free` event, run
unconditionally before `ret` is returned. The result is the event trace
paired with the propagated write outcome. -/
def HResult.fmt (h : HResult) (fm : Int → String)
    (write : String → Except Unit Unit) : List BufEvent × Except Unit Unit :=
  let ev1 : List BufEvent := [BufEvent.alloc]
  let buffer : String := fm h.code
  let ret : Except Unit Unit := write buffer
  let ev2 : List BufEvent := [BufEvent.free]
  (ev1 ++ ev2, ret)

/-- A concrete non-null handle at address 4096, for witnesses. -/
def ptr4096 : ComPtr :=
  ⟨⟨4096, by decide⟩⟩

/-- A concrete non-null handle at address 8192, for witnesses. -/
def ptr8192 : ComPtr :=
  ⟨⟨8192, by decide⟩⟩

/-- Claim C2: `hresult v c` returns success wrapping exactly `v` when
`c ≥ 0` and failure wrapping exactly `c` when `c < 0`; it is a pure
function, so this holds for every payload and every code, the boundary
codes included. -/
theorem hresult_translates (T : Type) (v : T) (c : Int) :
    (c ≥ 0 → hresult v c = Except.ok v) ∧
    (c < 0 → hresult v c = Except.error ⟨c⟩) := by
  constructor <;> intro hc <;> simp [hresult] <;> omega

/-- Witness for C2 at the boundary codes 0, -1, `i32::MIN` and
`i32::MAX`. -/
theorem hresult_translates_witness :
    hresult (42 : Int) 0 = Except.ok 42 ∧
    hresult (42 : Int) (-1) = Except.error ⟨-1⟩ ∧
    hresult (42 : Int) (-2147483648) = Except.error ⟨-2147483648⟩ ∧
    hresult (42 : Int) 2147483647 = Except.ok 42 :=
  ⟨(hresult_translates Int 42 0).1 (by decide),
   (hresult_translates Int 42 (-1)).2 (by decide),
   (hresult_translates Int 42 (-2147483648)).2 (by decide),
   (hresult_translates Int 42 2147483647).1 (by decide)⟩

/-- Claim C10: `is_succeed` holds iff the wrapped code is non-negative,
`is_failed` holds iff it is negative, and the two predicates are exact
complements on every code, 0 included. -/
theorem is_succeed_complements_is_failed (h : HResult) :
    (h.is_succeed = true ↔ 0 ≤ h.code) ∧
    (h.is_failed = true ↔ h.code < 0) ∧
    h.is_succeed = !h.is_failed := by
  refine ⟨?_, ?_, ?_⟩
  · simp [HResult.is_succeed]
  · simp [HResult.is_failed]
  · simp only [HResult.is_succeed, HResult.is_failed, Bool.not_eq_true]
    rcases lt_or_le h.code 0 with hc | hc
    · simp [hc, not_le.mpr hc]
    · simp [hc, not_lt.mpr hc]

/-- Claim C8: wrapping any non-null address with `from_raw` succeeds and
reading it back through `as_ptr` returns the address unchanged; the
accessor is a pure projection with no side effect and no ownership
transfer. -/
theorem from_raw_as_ptr_roundtrip (a : Nat) (h : a ≠ 0) :
    (ComPtr.from_raw a).map ComPtr.as_ptr = some a := by
  simp [ComPtr.from_raw, NonNull.new, h, ComPtr.as_ptr]

/-- Witness for C8 at the concrete address 4096. -/
theorem from_raw_as_ptr_roundtrip_witness :
    (ComPtr.from_raw 4096).map ComPtr.as_ptr = some 4096 :=
  from_raw_as_ptr_roundtrip 4096 (by decide)

/-- Claim C3: constructing from the null address is fatal, never a
returned recoverable error — `from_raw 0` panics, and `ComPtr::new`
panics when the factory returns null with a success outcome — and every
live `ComPtr` value carries a non-null address. -/
theorem null_construction_fatal :
    ComPtr.from_raw 0 = none ∧
    (∀ (E : Type) (f : Unit → Except E Nat),
      f () = Except.ok 0 → ComPtr.new f = none) ∧
    (∀ c : ComPtr, c.as_ptr ≠ 0) := by
  refine ⟨rfl, ?_, ?_⟩
  · intro E f hf
    simp [ComPtr.new, hf, ComPtr.from_raw, NonNull.new]
  · intro c
    exact c.p.ne

/-- Witness for C3: a concrete factory that reports success with a null
address makes `ComPtr::new` panic, and the concrete handle at 4096 has a
non-null address. -/
theorem null_construction_fatal_witness :
    ComPtr.new (fun _ => (Except.ok 0 : Except Unit Nat)) = none ∧
    ComPtr.as_ptr ptr4096 ≠ 0 :=
  ⟨null_construction_fatal.2.1 Unit (fun _ => Except.ok 0) rfl,
   null_construction_fatal.2.2 ptr4096⟩

/-- Claim C7: when the factory closure itself fails with error `e`,
`ComPtr::new` returns exactly `e`, untranslated and unwrapped, and no
handle is constructed (the success branch, and with it `from_raw`, is
never reached). -/
theorem new_propagates_factory_error (E : Type) (e : E)
    (f : Unit → Except E Nat) (hf : f () = Except.error e) :
    ComPtr.new f = some (Except.error e) := by
  simp [ComPtr.new, hf]

/-- Witness for C7 with a concrete closure failing with the integer
error 7: the error comes back verbatim. -/
theorem new_propagates_factory_error_witness :
    ComPtr.new (fun _ => (Except.error 7 : Except Int Nat)) =
      some (Except.error 7) :=
  new_propagates_factory_error Int 7 (fun _ => Except.error 7) rfl

/-- Claim C5: cloning a live handle performs exactly one `AddRef`, so the
shared count grows by exactly one; it is total (never fails); and the new
handle's raw address equals the original's. -/
theorem clone_increments_and_shares_address (c : ComPtr) (count : Int) :
    (c.clone count).2 = count + 1 ∧
    (c.clone count).1.as_ptr = c.as_ptr ∧
    (c.clone count).1 = c := by
  refine ⟨rfl, rfl, rfl⟩

/-- Claim C6: two handles of the same interface type compare equal iff
their raw addresses are equal (identity comparison — two distinct handle
values at one address are equal, whatever the pointed-to state), and the
`Ord` comparison is exactly the numeric comparison of the raw
addresses. -/
theorem eq_and_ord_by_address (a b : ComPtr) :
    (ComPtr.eq a b = true ↔ a.as_ptr = b.as_ptr) ∧
    ComPtr.cmp a b = compare a.as_ptr b.as_ptr ∧
    (ComPtr.cmp a b = Ordering.lt ↔ a.as_ptr < b.as_ptr) ∧
    (ComPtr.cmp a b = Ordering.eq ↔ a.as_ptr = b.as_ptr) ∧
    (ComPtr.cmp a b = Ordering.gt ↔ b.as_ptr < a.as_ptr) := by
  refine ⟨?_, rfl, ?_, ?_, ?_⟩
  · simp [ComPtr.eq]
  · simp [ComPtr.cmp, Nat.compare_eq_lt]
  · simp [ComPtr.cmp, Nat.compare_eq_eq]
  · simp [ComPtr.cmp, Nat.compare_eq_gt]

/-- Unfolding lemma for `dropAll`: each handle in the list decrements the
shared count exactly once, so dropping the list subtracts its length. -/
theorem dropAll_sub_length (cs : List ComPtr) (n : Int) :
    dropAll cs n = n - cs.length := by
  induction cs generalizing n with
  | nil => simp [dropAll]
  | cons c cs ih =>
    have hstep : dropAll (c :: cs) n = dropAll cs (n - 1) := rfl
    rw [hstep, ih]
    simp
    ring

/-- Claim C4: each handle's destructor decrements the count exactly once
(one `Release` per `drop`, never more), and dropping all handles that
share one address, starting from a count equal to the number of handles,
brings the count to zero exactly once: after dropping the first `i` of
`n` handles the count is `n - i`, which is zero iff `i = n` — so zero is
reached exactly at the last drop and there is no double-decrement. -/
theorem drop_decrements_exactly_once (cs : List ComPtr) (i : Nat)
    (hi : i ≤ cs.length) :
    (∀ (c : ComPtr) (n : Int), c.drop n = n - 1) ∧
    dropAll cs (cs.length : Int) = 0 ∧
    dropAll (cs.take i) (cs.length : Int) = (cs.length : Int) - i ∧
    (dropAll (cs.take i) (cs.length : Int) = 0 ↔ i = cs.length) := by
  have htake : (cs.take i).length = i := by
    simp [List.length_take, Nat.min_eq_left hi]
  refine ⟨fun c n => rfl, ?_, ?_, ?_⟩
  · rw [dropAll_sub_length]; ring
  · rw [dropAll_sub_length, htake]
  · rw [dropAll_sub_length, htake]
    omega

/-- Witness for C4 with two concrete handles sharing the reference count:
dropping both from count 2 reaches zero, and after dropping only the
first the count is 1, not 0. -/
theorem drop_decrements_exactly_once_witness :
    dropAll [ptr4096, ptr8192] ((List.length [ptr4096, ptr8192] : Nat) : Int) = 0 ∧
    (dropAll (List.take 1 [ptr4096, ptr8192])
        ((List.length [ptr4096, ptr8192] : Nat) : Int) = 0 ↔
      1 = List.length [ptr4096, ptr8192]) :=
  ⟨(drop_decrements_exactly_once [ptr4096, ptr8192] 1 (by simp)).2.1,
   (drop_decrements_exactly_once [ptr4096, ptr8192] 1 (by simp)).2.2.2⟩

/-- Claim C1 fails on this code: with a COM-compliant failing
`QueryInterface` — out pointer set to null, status `E_NOINTERFACE`
(`0x80004002`, i.e. -2147467262) — `query_interface` does not return the
status code as an error; it panics inside `ComPtr::from_raw` (modelled as
`none`), because the out pointer is wrapped before the status code is
inspected. -/
theorem query_interface_failure_panics :
    ComPtr.query_interface ptr4096 0 (-2147467262) = none ∧
    ComPtr.query_interface ptr4096 0 (-2147467262) ≠
      some (Except.error ⟨-2147467262⟩) := by
  exact ⟨rfl, by simp [ComPtr.query_interface, ComPtr.from_raw, NonNull.new]⟩

/-- Claim C9: every `Display` formatting call allocates exactly one
native buffer and frees it before returning, on the success and on the
failure path of message construction alike — the trace is always one
`alloc` followed by one `free`, whatever `write` outcome the formatter
produces, and that outcome is returned unchanged. -/
theorem display_always_frees_buffer (h : HResult) (fm : Int → String)
    (write : String → Except Unit Unit) :
    (HResult.fmt h fm write).1 = [BufEvent.alloc, BufEvent.free] ∧
    (HResult.fmt h fm write).1.count BufEvent.alloc = 1 ∧
    (HResult.fmt h fm write).1.count BufEvent.free = 1 ∧
    (HResult.fmt h fm write).2 = write (fm h.code) := by
  refine ⟨rfl, ?_, ?_, rfl⟩ <;> rfl

end ComPtrLib
